import Mathlib

/-!
Verification of the booking/intent core of the consultant_bot_booking repository.

The Python source is embedded shallowly:
- message text is modelled as `List Char` (the source normalizes to lowercase,
  collapses whitespace and folds ё→е before classification; the embedded
  classifier operates on the already-normalized text, as the claims do);
- local wall-clock time is modelled as minutes (`Nat`) since a Monday 00:00
  reference in the bot's fixed timezone (Europe/Minsk is UTC+3 with no DST, so
  Python datetime arithmetic in that timezone is plain minute arithmetic);
- timezone-aware/naive `datetime` values are modelled as a pair of wall-clock
  minutes and an optional UTC offset;
- fallible calls are modelled with `Except`/`Option` and explicit oracle
  parameters for external collaborator outcomes (calendar API results).
-/

namespace ConsultantBot

/-! ## Intent classifier (src/services/bot_logic.py) -/

abbrev Text := List Char

/-- Predicate `listStartsWith n h`: true when `n` is a leading segment of `h`. -/
def listStartsWith : Text → Text → Bool
  | [], _ => true
  | _ :: _, [] => false
  | a :: as, b :: bs => a == b && listStartsWith as bs

/-- Python's substring test `needle in haystack`. -/
def substrOf (needle : Text) : Text → Bool
  | [] => listStartsWith needle []
  | c :: cs => listStartsWith needle (c :: cs) || substrOf needle cs

/-- INTENT_KEYWORDS from src/services/bot_logic.py (verbatim, duplicates kept). -/
def intentKeywords : String → List String
  | "pricing" => ["цена", "стоимость", "прайс", "тариф", "расценка", "оплата", "сколько стоит", "прайслист",
                  "сколько обойдется", "сколько стоит", "цена", "стоимость", "прайс", "прайслист",
                  "сколько будет стоить", "во сколько обойдется", "дорого ли", "цены на",
                  "стоимость процедур", "сколько за", "цену на"]
  | "booking" => ["запись", "записаться", "назначить", "расписание", "прием", "окно", "время", "хочу прийти", "хочу на приём",
                  "хочу записаться", "хочу на прием", "можно записаться", "когда можно прийти", "есть время",
                  "свободное время", "расписание", "график работы", "хочу попасть", "нужно попасть",
                  "записать меня"]
  | "emergency" => ["кровь", "болит", "температура", "аллергия", "болеть", "боль", "покраснение", "сыпь",
                    "шишка", "тошнить", "кровь", "кровотечение", "отек", "отёк", "опухло", "воспаление",
                    "воспалилось", "жжение", "плохо себя чувствую", "уплотнение", "гной", "нагноение"]
  | _ => []

/-- INTENT_EXCLUSIONS from src/services/bot_logic.py (`dict.get(intent, [])`). -/
def intentExclusions : String → List String
  | "pricing" => ["не важна цена", "цена не важна"]
  | "emergency" => ["не болит", "больше не болит"]
  | _ => []

/-- Source `IntentClassifier._check_intent_keywords`: exclusions suppress the intent,
otherwise any keyword occurring as a substring matches. -/
def checkIntentKeywords (text : Text) (intent : String) : Bool :=
  !((intentExclusions intent).any fun ex => substrOf ex.data text) &&
  ((intentKeywords intent).any fun kw => substrOf kw.data text)

/-- Source `IntentClassifier.classify_by_keywords_and_patterns`, over the normalized
text. The source's step-1 exclusion loop only logs and `continue`s — it has no
semantic effect — so the function starts at the empty-text guard. The regex
pattern scan (step 4, over the dict `{aftercare, consultation}` in insertion
order) is abstracted by the `patternHit` parameter; the claims quantify over
all pattern behaviours. -/
def classifyByKeywordsAndPatterns (patternHit : String → Text → Bool) (text : Text) : String :=
  if text.isEmpty then "general"
  else if checkIntentKeywords text "emergency" then "emergency"
  else if checkIntentKeywords text "booking" then "booking"
  else if checkIntentKeywords text "pricing" then "pricing"
  else if patternHit "aftercare" text then "aftercare"
  else if patternHit "consultation" text then "consultation"
  else "consultation"

theorem substrOf_nil_eq_true (n : Text) (h : substrOf n [] = true) : n = [] := by
  cases n with
  | nil => rfl
  | cons a as => simp [substrOf, listStartsWith] at h

/-- C7: a normalized message containing an emergency keyword and no emergency
negation exclusion is classified `emergency`, whatever the other keyword lists
or regex patterns would match. -/
theorem C7_emergency_priority (patternHit : String → Text → Bool) (text : Text)
    (hkw : (intentKeywords "emergency").any (fun kw => substrOf kw.data text) = true)
    (hex : (intentExclusions "emergency").any (fun ex => substrOf ex.data text) = false) :
    classifyByKeywordsAndPatterns patternHit text = "emergency" := by
  have hne : text ≠ [] := by
    intro hnil
    subst hnil
    rw [List.any_eq_true] at hkw
    obtain ⟨kw, hmem, hsub⟩ := hkw
    have hkwne : kw.data ≠ [] := by
      have hall : (intentKeywords "emergency").all (fun kw => !kw.data.isEmpty) = true := by decide
      rw [List.all_eq_true] at hall
      have := hall kw hmem
      simp at this
      simpa [String.isEmpty, List.isEmpty_iff] using this
    exact hkwne (substrOf_nil_eq_true _ (by simpa using hsub))
  have hcheck : checkIntentKeywords text "emergency" = true := by
    unfold checkIntentKeywords
    rw [hkw, hex]
    rfl
  unfold classifyByKeywordsAndPatterns
  rw [hcheck]
  simp [List.isEmpty_iff, hne]

/-- C7 witness: the concrete message "кровь" (an emergency keyword, no
exclusion present) classifies as emergency even when every regex pattern hits. -/
theorem C7_emergency_priority_witness :
    classifyByKeywordsAndPatterns (fun _ _ => true) ("кровь".data) = "emergency" :=
  C7_emergency_priority (fun _ _ => true) ("кровь".data) (by decide) (by decide)

/-! ## Availability engine (src/services/google_calendar_service.py)

Local time is `Nat` minutes since a Monday 00:00 in Europe/Minsk; a calendar
day is `t / 1440`, its weekday is `day % 7` with 0 = Monday, matching Python's
`date.weekday()`. -/

structure CalSlot where
  start : Nat
  /-- the `end` key of the slot dict (`end` is reserved in Lean) -/
  stop : Nat
  deriving DecidableEq, Repr

/-- Model of `dt.replace(hour=h, ...)` keeping day and minute (`second`/`microsecond`
are always 0 in this model). -/
def replaceHour (t h : Nat) : Nat := t / 1440 * 1440 + h * 60 + t % 60

/-- Model of `dt.replace(minute=0, second=0, microsecond=0)`: truncate to the hour. -/
def truncToHour (t : Nat) : Nat := t / 60 * 60

/-- WORK_DAYS = [0,1,2,3,4,5] (Mon–Sat). -/
def WORK_DAYS : List Nat := [0, 1, 2, 3, 4, 5]

/-- Source `_generate_day_slots(date, busy_slots, 60min, 9, 18, 60)`. The source's
`while current_time + slot_duration <= end_time` loop stepping by 60 minutes
is rendered as a `filterMap` over the candidate grid
`current_time + 60*k, k < (end_time - current_time)/60`, which enumerates
exactly the loop's iterations in order. -/
def generateDaySlots (now date : Nat) (busy : List (Nat × Nat)) : List CalSlot :=
  let base := date * 1440 + 9 * 60
  let c1 := if date = now / 1440 then max base (truncToHour (now + 120)) else base
  let endT := replaceHour c1 18
  (List.range ((endT - c1) / 60)).filterMap fun k =>
    let s := c1 + 60 * k
    if busy.any (fun b => decide (s < b.2) && decide (s + 60 > b.1)) then none
    else some ⟨s, s + 60⟩

/-- Source `_generate_available_slots`: iterate days from `start_time.date()` while
strictly before `end_time.date()`, skip non-working weekdays, concatenate each
day's slots, cap at 50. -/
def generateAvailableSlots (now startT endT : Nat) (busy : List (Nat × Nat)) : List CalSlot :=
  let d0 := startT / 1440
  let d1 := endT / 1440
  let days := ((List.range (d1 - d0)).map (fun k => d0 + k)).filter
    (fun d => WORK_DAYS.contains (d % 7))
  ((days.map fun d => generateDaySlots now d busy).flatten).take 50

/-- Outcome of the busy-interval query performed inside `_get_busy_slots`. -/
inductive BusyFetch
  /-- the events query succeeded and parsed into these local-time intervals -/
  | ok (busy : List (Nat × Nat))
  /-- the query raised `HttpError` -/
  | httpError
  /-- the query raised any other exception -/
  | otherError
  deriving DecidableEq, Repr

/-- Source `_get_busy_slots`: only `HttpError` is caught (returning `[]`); any other
exception propagates to the caller. -/
def getBusySlots : BusyFetch → Except Unit (List (Nat × Nat))
  | .ok b => .ok b
  | .httpError => .ok []
  | .otherError => .error ()

/-- Window start computed at the top of `get_available_slots`: 09:00 tomorrow
when `now.hour >= 18`, else `max(now + 2h, 09:00 today)`. -/
def availabilityStart (now : Nat) : Nat :=
  if 18 ≤ now % 1440 / 60 then (now + 1440) / 1440 * 1440 + 9 * 60
  else max (now + 120) (now / 1440 * 1440 + 9 * 60)

/-- Source `get_available_slots(days_ahead, 60)`: the whole body runs under a blanket
`try`, so any propagated exception (the `.error` case of the busy fetch, which
models every non-`HttpError` failure) yields `[]`. -/
def getAvailableSlots (now : Nat) (fetch : BusyFetch) (daysAhead : Nat) : List CalSlot :=
  match getBusySlots fetch with
  | .error _ => []
  | .ok busy =>
    let startT := availabilityStart now
    generateAvailableSlots now startT (startT + daysAhead * 1440) busy

/-- The floor that the generated slots actually respect: the spec's
`max(now + 2h, 09:00 today)` with the `now + 2h` term truncated down to the
whole hour (the source's `min_time.replace(minute=0, ...)`). -/
def amendedFloor (now : Nat) : Nat :=
  if 18 ≤ now % 1440 / 60 then (now + 1440) / 1440 * 1440 + 9 * 60
  else max (now / 1440 * 1440 + 9 * 60) (truncToHour (now + 120))

theorem mem_generateDaySlots (now date : Nat) (busy : List (Nat × Nat)) (s : CalSlot)
    (c1 : Nat)
    (hc1 : c1 = if date = now / 1440 then
        max (date * 1440 + 9 * 60) (truncToHour (now + 120)) else date * 1440 + 9 * 60)
    (hs : s ∈ generateDaySlots now date busy) :
    c1 ≤ s.start ∧ s.start + 60 ≤ replaceHour c1 18 ∧ s.stop = s.start + 60 ∧
      busy.any (fun b => decide (s.start < b.2) && decide (s.start + 60 > b.1)) = false := by
  simp only [generateDaySlots, List.mem_filterMap, List.mem_range] at hs
  rw [← hc1] at hs
  obtain ⟨k, hk, hval⟩ := hs
  have h2 : (k + 1) * 60 ≤ (replaceHour c1 18 - c1) / 60 * 60 :=
    Nat.mul_le_mul_right 60 hk
  have h3 : (replaceHour c1 18 - c1) / 60 * 60 ≤ replaceHour c1 18 - c1 :=
    Nat.div_mul_le_self _ _
  split at hval
  · simp at hval
  next hfree =>
    rw [Option.some.injEq] at hval
    subst hval
    refine ⟨?_, ?_, rfl, ?_⟩
    · show c1 ≤ c1 + 60 * k
      omega
    · show c1 + 60 * k + 60 ≤ replaceHour c1 18
      omega
    · show busy.any _ = false
      simpa using hfree

theorem mem_getAvailableSlots (now daysAhead : Nat) (busy : List (Nat × Nat)) (s : CalSlot)
    (hs : s ∈ getAvailableSlots now (.ok busy) daysAhead) :
    ∃ d, availabilityStart now / 1440 ≤ d ∧ WORK_DAYS.contains (d % 7) = true ∧
      s ∈ generateDaySlots now d busy := by
  simp only [getAvailableSlots, getBusySlots, generateAvailableSlots] at hs
  have hs' := List.mem_of_mem_take hs
  rw [List.mem_flatten] at hs'
  obtain ⟨l, hl, hsl⟩ := hs'
  rw [List.mem_map] at hl
  obtain ⟨d, hd, rfl⟩ := hl
  rw [List.mem_filter] at hd
  obtain ⟨hdmem, hdwork⟩ := hd
  rw [List.mem_map] at hdmem
  obtain ⟨k, _, rfl⟩ := hdmem
  exact ⟨_, Nat.le_add_right _ _, hdwork, hsl⟩

/-- C5: no slot returned by the availability engine overlaps any busy interval
supplied to the generator, under the strict test
`candidate_start < busy_end ∧ candidate_end > busy_start`. -/
theorem C5_no_busy_overlap (now : Nat) (busy : List (Nat × Nat)) (s : CalSlot)
    (b : Nat × Nat) (hs : s ∈ getAvailableSlots now (.ok busy) 14) (hb : b ∈ busy) :
    ¬(s.start < b.2 ∧ s.stop > b.1) := by
  obtain ⟨d, _, _, hday⟩ := mem_getAvailableSlots now 14 busy s hs
  have h := mem_generateDaySlots now d busy s _ rfl hday
  obtain ⟨_, _, hstop, hfree⟩ := h
  rw [List.any_eq_false] at hfree
  have := hfree b hb
  rw [hstop]
  simpa using this

/-- C5 witness: with `now` = Monday 12:30 and one busy interval 14:00–15:00,
the slot 15:00–16:00 is returned and indeed does not overlap it. -/
theorem C5_no_busy_overlap_witness :
    ¬((900 : Nat) < 900 ∧ (960 : Nat) > 840) :=
  C5_no_busy_overlap 750 [(840, 900)] ⟨900, 960⟩ (840, 900) (by decide) (by decide)

/-- C4 counterexample: at `now` = Monday 12:30 (minute 750) with an empty busy
list, the engine returns the slot starting at 14:00 (minute 840), which is
before the claimed floor `max(now + 2h, 09:00 today)` = 14:30 (minute 870):
the source truncates the `now + 2h` bound down to the whole hour before using
it, so the claim as stated is false. -/
theorem C4_floor_counterexample :
    ¬(∀ s ∈ getAvailableSlots 750 (.ok []) 14, 750 + 120 ≤ s.start) := by
  intro h
  have := h ⟨840, 900⟩ (by decide)
  exact absurd this (by decide)

/-- C4 (amended): every slot returned by the engine starts at or after the
floor that the code actually enforces — 09:00 next day when the current hour
is ≥ 18, otherwise `max(09:00 today, (now + 2h) truncated down to the whole
hour)` — and the slot's weekday is a working day (Mon–Sat). -/
theorem C4_slot_floor_amended (now : Nat) (busy : List (Nat × Nat)) (s : CalSlot)
    (hs : s ∈ getAvailableSlots now (.ok busy) 14) :
    amendedFloor now ≤ s.start ∧ WORK_DAYS.contains (s.start / 1440 % 7) = true := by
  obtain ⟨d, hd0, hwork, hday⟩ := mem_getAvailableSlots now 14 busy s hs
  obtain ⟨hle, hub, _, _⟩ := mem_generateDaySlots now d busy s _ rfl hday
  by_cases h18 : 18 ≤ now % 1440 / 60
  · have hA : availabilityStart now = (now + 1440) / 1440 * 1440 + 9 * 60 := by
      simp [availabilityStart, h18]
    have hF : amendedFloor now = (now + 1440) / 1440 * 1440 + 9 * 60 := by
      simp [amendedFloor, h18]
    rw [hA] at hd0
    have hdne : d ≠ now / 1440 := by omega
    rw [if_neg hdne] at hle hub
    rw [replaceHour] at hub
    have hsd : s.start / 1440 = d := by omega
    rw [hF]
    exact ⟨by omega, by rw [hsd]; exact hwork⟩
  · have hA : availabilityStart now = max (now + 120) (now / 1440 * 1440 + 9 * 60) := by
      simp [availabilityStart, h18]
    have hF : amendedFloor now = max (now / 1440 * 1440 + 9 * 60) (truncToHour (now + 120)) := by
      simp [amendedFloor, h18]
    rw [hA] at hd0
    rw [hF]
    by_cases hdq : d = now / 1440
    · rw [if_pos hdq] at hle hub
      rw [replaceHour] at hub
      rw [truncToHour] at hle hub ⊢
      rw [hdq] at hle hub
      have hsd : s.start / 1440 = d := by omega
      exact ⟨by omega, by rw [hsd]; exact hwork⟩
    · rw [if_neg hdq] at hle hub
      rw [replaceHour] at hub
      rw [truncToHour]
      have hsd : s.start / 1440 = d := by omega
      exact ⟨by omega, by rw [hsd]; exact hwork⟩

/-- C4 witness: the amended floor holds at `now` = Monday 12:30 for the
returned slot 14:00–15:00. -/
theorem C4_slot_floor_amended_witness :
    amendedFloor 750 ≤ (CalSlot.mk 840 900).start ∧
      WORK_DAYS.contains ((CalSlot.mk 840 900).start / 1440 % 7) = true :=
  C4_slot_floor_amended 750 [] ⟨840, 900⟩ (by decide)

/-- C10 counterexample: when the busy query raises `HttpError`, the engine
does NOT return the empty list — `_get_busy_slots` swallows the error and
returns an empty busy list, so the engine offers the full free grid, which is
very much distinguishable from "no free slots". -/
theorem C10_httpError_counterexample :
    getAvailableSlots 750 .httpError 14 ≠ [] := by decide

/-- C10 (amended): the function `get_available_slots` never raises (its body runs under a
blanket `except` returning `[]`, modelled by totality plus the `.error` arm),
and a non-HttpError collaborator failure yields `[]`; but an `HttpError` from
the busy-interval query is swallowed inside `_get_busy_slots` and behaves
exactly like a calendar with no events, returning the full free grid. -/
theorem C10_failure_behaviour_amended (now daysAhead : Nat) :
    getAvailableSlots now .otherError daysAhead = [] ∧
      getAvailableSlots now .httpError daysAhead =
        getAvailableSlots now (.ok []) daysAhead :=
  ⟨rfl, rfl⟩

/-! ## Slot value object (src/bot/handlers/fsm_booking.py)

A Python `datetime` is modelled as wall-clock minutes plus an optional UTC
offset in minutes (`none` = naive). `isoformat`/`fromisoformat` are mutually
inverse on such values and preserve both components, so the serialized form
carries the same two fields. `pytz.timezone('Europe/Minsk').localize` attaches
the fixed +03:00 offset in force for current dates. -/

structure PyDateTime where
  minutes : Int
  offset : Option Int
  deriving DecidableEq, Repr

/-- Python `==` on datetimes: naive vs aware compare unequal; two aware values
compare by instant (wall-clock minus offset); two naive by wall-clock. -/
def pyDtEq (a b : PyDateTime) : Bool :=
  match a.offset, b.offset with
  | none, none => a.minutes == b.minutes
  | some oa, some ob => a.minutes - oa == b.minutes - ob
  | _, _ => false

/-- The content of `dt.isoformat()`: wall-clock text plus the offset suffix
when the value is aware. -/
structure IsoString where
  minutes : Int
  offset : Option Int
  deriving DecidableEq, Repr

def isoformat (d : PyDateTime) : IsoString := ⟨d.minutes, d.offset⟩

def fromisoformat (s : IsoString) : PyDateTime := ⟨s.minutes, s.offset⟩

/-- Europe/Minsk UTC offset, minutes (UTC+3, no DST for current dates). -/
def minskOffset : Int := 180

/-- Model of `tz.localize(dt)` on a naive value: attach the local offset. -/
def tzLocalize (d : PyDateTime) : PyDateTime := { d with offset := some minskOffset }

/-- The instant (UTC minutes) a datetime denotes, as used by Python's ordering
comparisons between aware values; a naive value is first localized, matching
`_localize_datetime` / `Slot.deserialize`. -/
def instantOf (d : PyDateTime) : Int :=
  match d.offset with
  | some o => d.minutes - o
  | none => d.minutes - minskOffset

/-- The `Slot` dataclass of fsm_booking.py. -/
structure Slot where
  start : PyDateTime
  /-- the `end` field (`end` is reserved in Lean) -/
  stop : PyDateTime
  date_str : String
  time_str : String
  weekday : String
  display : String
  deriving DecidableEq, Repr

/-- The dict produced by `Slot.serialize` (datetimes ISO-formatted). -/
structure SerializedSlot where
  start : IsoString
  stop : IsoString
  date_str : String
  time_str : String
  weekday : String
  display : String
  deriving DecidableEq, Repr

def Slot.serialize (s : Slot) : SerializedSlot :=
  ⟨isoformat s.start, isoformat s.stop, s.date_str, s.time_str, s.weekday, s.display⟩

/-- Source `Slot.deserialize`: parse the ISO strings, then localize any naive value
to Europe/Minsk. -/
def Slot.deserialize (d : SerializedSlot) : Slot :=
  let start := fromisoformat d.start
  let stop := fromisoformat d.stop
  let start := if start.offset = none then tzLocalize start else start
  let stop := if stop.offset = none then tzLocalize stop else stop
  ⟨start, stop, d.date_str, d.time_str, d.weekday, d.display⟩

/-- A concrete Slot whose timestamps are naive. -/
def naiveSlotSample : Slot :=
  ⟨⟨600, none⟩, ⟨660, none⟩, "16.12.2024", "10:00", "Пн", "16.12.2024 (Пн) 10:00"⟩

/-- C6 counterexample: for a Slot with naive timestamps, the round trip is NOT
the identity — deserialization attaches +03:00, and in Python an aware
datetime never compares equal to a naive one — so the universally quantified
round-trip claim fails. -/
theorem C6_roundtrip_counterexample :
    pyDtEq (Slot.deserialize naiveSlotSample.serialize).start naiveSlotSample.start = false ∧
      Slot.deserialize naiveSlotSample.serialize ≠ naiveSlotSample := by
  decide

/-- C6 (amended): for every Slot whose start and end carry a timezone offset,
`deserialize (serialize slot)` is the identity (in particular the timestamps
compare Python-equal); and after any deserialization both timestamps carry an
explicit offset, never naive (a naive serialized timestamp gets the local
timezone). -/
theorem C6_roundtrip_amended (s : Slot) (d : SerializedSlot)
    (h1 : s.start.offset.isSome) (h2 : s.stop.offset.isSome) :
    Slot.deserialize s.serialize = s ∧
      pyDtEq (Slot.deserialize s.serialize).start s.start = true ∧
      pyDtEq (Slot.deserialize s.serialize).stop s.stop = true ∧
      (Slot.deserialize d).start.offset.isSome ∧ (Slot.deserialize d).stop.offset.isSome := by
  obtain ⟨o1, ho1⟩ := Option.isSome_iff_exists.mp h1
  obtain ⟨o2, ho2⟩ := Option.isSome_iff_exists.mp h2
  have hid : Slot.deserialize s.serialize = s := by
    obtain ⟨⟨m1, off1⟩, ⟨m2, off2⟩, a, b, c, e⟩ := s
    dsimp only at ho1 ho2
    subst ho1
    subst ho2
    simp [Slot.deserialize, Slot.serialize, isoformat, fromisoformat]
  refine ⟨hid, ?_, ?_, ?_, ?_⟩
  · rw [hid]; simp [pyDtEq, ho1]
  · rw [hid]; simp [pyDtEq, ho2]
  · simp only [Slot.deserialize, fromisoformat]
    rcases h : d.start.offset with _ | o <;> simp [h, tzLocalize]
  · simp only [Slot.deserialize, fromisoformat]
    rcases h : d.stop.offset with _ | o <;> simp [h, tzLocalize]

/-- C6 witness: the amended round trip at a concrete timezone-aware slot and a
concrete serialized dict with naive timestamps. -/
theorem C6_roundtrip_amended_witness :
    Slot.deserialize (Slot.serialize ⟨⟨600, some 180⟩, ⟨660, some 180⟩, "a", "b", "c", "d"⟩) =
        ⟨⟨600, some 180⟩, ⟨660, some 180⟩, "a", "b", "c", "d"⟩ ∧
      pyDtEq (Slot.deserialize (Slot.serialize
        ⟨⟨600, some 180⟩, ⟨660, some 180⟩, "a", "b", "c", "d"⟩)).start ⟨600, some 180⟩ = true ∧
      pyDtEq (Slot.deserialize (Slot.serialize
        ⟨⟨600, some 180⟩, ⟨660, some 180⟩, "a", "b", "c", "d"⟩)).stop ⟨660, some 180⟩ = true ∧
      (Slot.deserialize naiveSlotSample.serialize).start.offset.isSome ∧
      (Slot.deserialize naiveSlotSample.serialize).stop.offset.isSome :=
  C6_roundtrip_amended ⟨⟨600, some 180⟩, ⟨660, some 180⟩, "a", "b", "c", "d"⟩
    naiveSlotSample.serialize (by decide) (by decide)

/-! ## Calendar write path (src/services/google_calendar_service.py, create_booking) -/

/-- The value the handler's `event_data` variable can hold: Python `None`, the
string "SLOT_OCCUPIED", or a dict (with the value at key `id`, when present). -/
inductive EventData
  | noneVal
  | slotOccupied
  | dict (id : Option String)
  deriving DecidableEq, Repr

/-- Outcome of `self.service.events().insert(...)` followed by `.execute()`:
either the created event resource (its `id`), or a raised exception. -/
inductive InsertOutcome
  | created (id : Option String)
  | raisedErr
  deriving DecidableEq, Repr

/-- Source `GoogleCalendarService.create_booking`, traced faithfully:

* not initialized → `RuntimeError` raised before the `try` block (`.error`);
* the race re-check finds an overlap → `raise ValueError(...)`, which the
  function's own blanket `except Exception` catches, so it returns `None`;
* the insert call raises → caught by the same `except` → returns `None`;
* the insert succeeds: `event_data = created_event.execute()` creates the
  event, but the next line `event_id = created_event['id']` subscripts the
  `HttpRequest` object (not the returned dict), raising `TypeError`, which the
  blanket `except` catches → returns `None` and the `return event_data` line
  is never reached.

Times are instants (UTC minutes); aware-datetime comparisons in the race
check compare instants. -/
def calendarCreateBooking (initialized : Bool) (slotStart slotStop : Int)
    (busy : List (Int × Int)) (insert : InsertOutcome) : Except Unit EventData :=
  if !initialized then .error ()
  else if busy.any (fun b => decide (slotStart < b.2) && decide (slotStop > b.1)) then
    .ok .noneVal
  else
    match insert with
    | .raisedErr => .ok .noneVal
    | .created _ => .ok .noneVal

/-- Whether, on the same trace, a calendar event actually came into existence
(the side effect of `created_event.execute()`): the service is initialized,
the race check passed, and the insert succeeded. -/
def calendarEventCreated (initialized : Bool) (slotStart slotStop : Int)
    (busy : List (Int × Int)) (insert : InsertOutcome) : Bool :=
  initialized &&
  !(busy.any (fun b => decide (slotStart < b.2) && decide (slotStop > b.1))) &&
  (match insert with
   | .created _ => true
   | .raisedErr => false)

/-! ## Durable records (src/data/database.py) -/

/-- The `booking_data` dict passed to `Database.create_booking`; `status` and
`calendar_event_id` are optional keys (`dict.get`). -/
structure BookingData where
  procedure : String
  contact_info : Text
  preferred_time : String
  notes : String
  status : Option String
  calendar_event_id : Option String
  calendar_slot : IsoString
  deriving DecidableEq, Repr

/-- A row of the `bookings` table as inserted by `Database.create_booking`
(`booking_data.get('status', 'pending')` supplies the default). -/
structure BookingRow where
  user_id : Int
  procedure : String
  contact_info : Text
  preferred_time : String
  notes : String
  status : String
  calendar_event_id : Option String
  calendar_slot : IsoString
  deriving DecidableEq, Repr

def dbCreateBooking (userId : Int) (d : BookingData) : BookingRow :=
  ⟨userId, d.procedure, d.contact_info, d.preferred_time, d.notes,
   d.status.getD "pending", d.calendar_event_id, d.calendar_slot⟩

/-- A row of the `reminders` table as created by
`ReminderService.create_booking_reminders` (the formatted `message_text` is
presentation only and omitted). -/
structure Reminder where
  user_id : Int
  booking_id : Int
  reminder_type : String
  scheduled_time : Int
  deriving DecidableEq, Repr

/-- Source `ReminderService.create_booking_reminders`: the appointment time is
converted to UTC; a day-before and a two-hours-before reminder are each
created only when strictly in the future (`>` against `datetime.now(utc)`).
Its own blanket `except` means it never propagates an exception. -/
def createBookingReminders (nowUtc userId bookingId appointmentUtc : Int) : List Reminder :=
  (if nowUtc < appointmentUtc - 1440 then
    [⟨userId, bookingId, "day_before", appointmentUtc - 1440⟩] else []) ++
  (if nowUtc < appointmentUtc - 120 then
    [⟨userId, bookingId, "hour_before", appointmentUtc - 120⟩] else [])

/-! ## Final confirmation handler (src/bot/handlers/fsm_booking.py,
`final_booking_confirmation_handler`) -/

/-- Python `str.strip()` whitespace. -/
def isPySpace (c : Char) : Bool :=
  c == ' ' || c == '\t' || c == '\n' || c == '\r' || c == Char.ofNat 11 || c == Char.ofNat 12

def pyStrip (l : Text) : Text :=
  ((l.dropWhile isPySpace).reverse.dropWhile isPySpace).reverse

/-- Python `str.split('\n')` (keeps empty pieces). -/
def splitLines : Text → List Text
  | [] => [[]]
  | c :: cs =>
    match splitLines cs with
    | [] => [[]]
    | l :: ls => if c = '\n' then [] :: l :: ls else (c :: l) :: ls

/-- What the handler shows the user at the end of the commit. -/
inductive UserMessage
  | success
  | slotOccupiedMsg
  | errorApology
  deriving DecidableEq, Repr

/-- Observable result of one invocation of the final-confirmation handler:
the booking rows inserted (in order), the final value of the handler's
`booking_status` / `calendar_event_id` variables, the reminder rows created,
the message branch shown, and whether the conversation state was cleared. -/
structure CommitResult where
  bookings : List BookingRow
  bookingStatus : String
  calendarEventId : Option String
  reminders : List Reminder
  outcome : UserMessage
  stateCleared : Bool
  deriving DecidableEq, Repr

/-- Lines 419–420: whether the `client_phone` parse completes without raising
(`[1]` indexes the split of the stripped text, the guard tests the raw text). -/
def phoneParseOk (contactInfo : Text) : Bool :=
  if !contactInfo.isEmpty && contactInfo.contains '\n' then
    ((splitLines (pyStrip contactInfo))[1]?).isSome
  else true

/-- Lines 422–452 (step 1): the (`booking_status`, `calendar_event_id`) pair
after the calendar step; `none` means the `event_data == "SLOT_OCCUPIED"`
early return was taken. -/
def commitStep1 (hasCredentials : Bool) (calResult : Except Unit EventData) :
    Option (String × Option String) :=
  if hasCredentials then
    match calResult with
    | .error _ => some ("pending", none)
    | .ok .slotOccupied => none
    | .ok (.dict (some i)) => some ("confirmed", some i)
    | .ok (.dict none) => some ("pending", none)
    | .ok .noneVal => some ("pending", none)
  else some ("pending", none)

/-- Model of `final_booking_confirmation_handler`, parameterized by `calResult`, the
value/exception produced by the `bot_logic.calendar_service.create_booking`
call (composed with the real service in `finalBookingFull`).

Trace notes, keyed to the source:
* lines 419–420: `client_name`/`client_phone` parsing; `[1]` indexes the
  split of the *stripped* text while the guard tests `'\n' in contact_info`
  on the raw text, so a trailing-newline contact raises `IndexError`, which
  the handler's outer `except` turns into the apology path (state cleared,
  nothing inserted);
* lines 426–452: the calendar step runs only when the config has
  `GOOGLE_CREDENTIALS_PATH`; its inner `except Exception` swallows any raise,
  leaving `booking_status = "pending"`; the `event_data == "SLOT_OCCUPIED"`
  comparison aborts with the distinct message and clears state; a dict with
  an `id` key sets `booking_status = "confirmed"` and stores the id;
* lines 455–478: `database.create_booking` is called TWICE in sequence — the
  second call passes no `status`/`calendar_event_id` keys, so that row gets
  the 'pending' default and no event id;
* lines 518–528: reminders are created only when `booking_status ==
  "confirmed"`; `hasattr(bot_logic, 'reminder_service')` is always true (the
  attribute is assigned in `__init__`), and if the service were still `None`
  the `AttributeError` is caught by the inner `except` and nothing is
  created (`reminderServiceSet` models whether `init_reminder_service` ran;
  `main.py` runs it at startup);
* `booking_id` is `lastrowid` of the *second* insert (`bookingId2`). -/
def finalBookingConfirmation (hasCredentials reminderServiceSet : Bool) (userId : Int)
    (username : String) (slotData : SerializedSlot) (procedureName : String)
    (contactInfo : Text) (calResult : Except Unit EventData)
    (bookingId2 nowUtc : Int) : CommitResult :=
  let selectedSlot := Slot.deserialize slotData
  if phoneParseOk contactInfo then
    match commitStep1 hasCredentials calResult with
    | none => ⟨[], "pending", none, [], .slotOccupiedMsg, true⟩
    | some (bookingStatus, calendarEventId) =>
      let notes := "Запись через бота. Telegram: @" ++ username
      let row1 := dbCreateBooking userId
        ⟨procedureName, contactInfo, selectedSlot.display, notes, some bookingStatus,
         calendarEventId, isoformat selectedSlot.start⟩
      let row2 := dbCreateBooking userId
        ⟨procedureName, contactInfo, selectedSlot.display, notes, none, none,
         isoformat selectedSlot.start⟩
      let reminders :=
        if bookingStatus == "confirmed" then
          if reminderServiceSet then
            createBookingReminders nowUtc userId bookingId2 (instantOf selectedSlot.start)
          else []
        else []
      ⟨[row1, row2], bookingStatus, calendarEventId, reminders, .success, true⟩
  else ⟨[], "pending", none, [], .errorApology, true⟩

/-- The handler composed with the modelled calendar service. -/
def finalBookingFull (initialized hasCredentials reminderServiceSet : Bool) (userId : Int)
    (username : String) (slotData : SerializedSlot) (procedureName : String)
    (contactInfo : Text) (busy : List (Int × Int)) (insert : InsertOutcome)
    (bookingId2 nowUtc : Int) : CommitResult :=
  let s := Slot.deserialize slotData
  finalBookingConfirmation hasCredentials reminderServiceSet userId username slotData
    procedureName contactInfo
    (calendarCreateBooking initialized (instantOf s.start) (instantOf s.stop) busy insert)
    bookingId2 nowUtc

/-- A concrete serialized slot: Monday 2024-12-16, 09:00–10:00 local (+03:00),
instants 360–420. -/
def sampleSlotData : SerializedSlot :=
  ⟨⟨540, some 180⟩, ⟨600, some 180⟩, "16.12.2024", "09:00", "Пн", "16.12.2024 (Пн) 09:00"⟩

def sampleContact : Text := "Анна Петрова\n+375291234567".data

/-- C1: FALSE of the code — a single completed flow inserts TWO booking rows,
because `final_booking_confirmation_handler` calls `database.create_booking`
twice back to back (fsm_booking.py lines 455–466 and 469–478). Evaluated here
on a concrete completed flow (calendar unavailable, so the downstream calendar
step has already degraded): the handler reports success and has inserted two
rows, the second with defaulted 'pending' status. -/
theorem C1_single_insert_failing_input :
    (finalBookingFull true true true 42 "anna" sampleSlotData "Чистка лица" sampleContact
        [] .raisedErr 7 0).bookings.length = 2 ∧
      (finalBookingFull true true true 42 "anna" sampleSlotData "Чистка лица" sampleContact
        [] .raisedErr 7 0).outcome = .success := by
  decide

/-- C2: FALSE of the code — when the race re-check finds the slot occupied,
`create_booking` raises `ValueError`, which its own blanket `except` swallows,
returning `None`; the handler's `event_data == "SLOT_OCCUPIED"` branch is dead
code. At a concrete commit whose slot interval exactly matches a busy
interval, the flow does NOT abort with the distinct slot-occupied outcome: it
inserts (two) booking rows for that user and slot and reports success. -/
theorem C2_race_check_failing_input :
    (finalBookingFull true true true 42 "anna" sampleSlotData "Чистка лица" sampleContact
        [(360, 420)] (.created (some "evt1")) 7 0).outcome = .success ∧
      (finalBookingFull true true true 42 "anna" sampleSlotData "Чистка лица" sampleContact
        [(360, 420)] (.created (some "evt1")) 7 0).outcome ≠ .slotOccupiedMsg ∧
      (finalBookingFull true true true 42 "anna" sampleSlotData "Чистка лица" sampleContact
        [(360, 420)] (.created (some "evt1")) 7 0).bookings ≠ [] := by
  decide

/-- C3: FALSE of the code — on a commit where the calendar insert succeeds
(the event comes into existence), `create_booking` still returns `None`: after
`event_data = created_event.execute()` the line `created_event['id']`
subscripts the `HttpRequest` object and raises `TypeError`, caught by the
blanket `except`. So the booking is persisted with status 'pending' and no
stored event id even though the calendar event was successfully created,
violating the claimed 'confirmed iff created' equivalence. -/
theorem C3_status_iff_failing_input :
    calendarEventCreated true 360 420 [] (.created (some "evt1")) = true ∧
      (finalBookingFull true true true 42 "anna" sampleSlotData "Чистка лица" sampleContact
        [] (.created (some "evt1")) 7 0).bookingStatus = "pending" ∧
      (finalBookingFull true true true 42 "anna" sampleSlotData "Чистка лица" sampleContact
        [] (.created (some "evt1")) 7 0).calendarEventId = none ∧
      (∀ b ∈ (finalBookingFull true true true 42 "anna" sampleSlotData "Чистка лица"
          sampleContact [] (.created (some "evt1")) 7 0).bookings,
        b.status = "pending" ∧ b.calendar_event_id = none) := by
  decide

theorem mem_createBookingReminders (nowUtc userId bookingId apptUtc : Int) (rem : Reminder)
    (h : rem ∈ createBookingReminders nowUtc userId bookingId apptUtc) :
    nowUtc < rem.scheduled_time ∧
      ((rem.reminder_type = "day_before" ∧ rem.scheduled_time = apptUtc - 1440) ∨
       (rem.reminder_type = "hour_before" ∧ rem.scheduled_time = apptUtc - 120)) := by
  unfold createBookingReminders at h
  rw [List.mem_append] at h
  rcases h with h | h
  · by_cases hc : nowUtc < apptUtc - 1440
    · rw [if_pos hc, List.mem_singleton] at h
      subst h
      exact ⟨hc, Or.inl ⟨rfl, rfl⟩⟩
    · rw [if_neg hc] at h
      exact absurd h (List.not_mem_nil rem)
  · by_cases hc : nowUtc < apptUtc - 120
    · rw [if_pos hc, List.mem_singleton] at h
      subst h
      exact ⟨hc, Or.inr ⟨rfl, rfl⟩⟩
    · rw [if_neg hc] at h
      exact absurd h (List.not_mem_nil rem)

/-- C8: reminders are created iff the handler's computed booking status is
'confirmed' (with the reminder service wired, as `main.py` does at startup):
a non-confirmed status yields no reminder rows; a confirmed status yields
exactly the rows of `create_booking_reminders`, which are the day-before and
two-hours-before lead times, each created only when its fire time is strictly
after now — a fire time at or before now is never created. -/
theorem C8_reminder_gating (hasCred : Bool) (userId : Int) (username : String)
    (slotData : SerializedSlot) (procedureName : String) (contactInfo : Text)
    (calResult : Except Unit EventData) (bookingId2 nowUtc : Int) (r : CommitResult)
    (hr : r = finalBookingConfirmation hasCred true userId username slotData procedureName
      contactInfo calResult bookingId2 nowUtc) :
    (r.bookingStatus ≠ "confirmed" → r.reminders = []) ∧
      (r.bookingStatus = "confirmed" →
        r.reminders = createBookingReminders nowUtc userId bookingId2
          (instantOf (Slot.deserialize slotData).start)) ∧
      (∀ rem ∈ r.reminders, nowUtc < rem.scheduled_time ∧
        ((rem.reminder_type = "day_before" ∧
            rem.scheduled_time = instantOf (Slot.deserialize slotData).start - 1440) ∨
         (rem.reminder_type = "hour_before" ∧
            rem.scheduled_time = instantOf (Slot.deserialize slotData).start - 120))) := by
  subst hr
  have hstep : commitStep1 hasCred calResult = none ∨
      commitStep1 hasCred calResult = some ("pending", none) ∨
      ∃ i, commitStep1 hasCred calResult = some ("confirmed", some i) := by
    cases hasCred
    · exact Or.inr (Or.inl rfl)
    · rcases calResult with e | ed
      · exact Or.inr (Or.inl rfl)
      · rcases ed with _ | _ | oid
        · exact Or.inr (Or.inl rfl)
        · exact Or.inl rfl
        · rcases oid with _ | i
          · exact Or.inr (Or.inl rfl)
          · exact Or.inr (Or.inr ⟨i, rfl⟩)
  unfold finalBookingConfirmation
  by_cases hph : phoneParseOk contactInfo
  · rw [if_pos hph]
    rcases hstep with hc | hc | ⟨i, hc⟩ <;> rw [hc]
    · refine ⟨fun _ => rfl, fun h => absurd h ?_,
        fun rem hrem => absurd hrem (List.not_mem_nil rem)⟩
      change ("pending" : String) ≠ "confirmed"
      decide
    · refine ⟨fun _ => rfl, fun h => absurd h ?_,
        fun rem hrem => absurd hrem (List.not_mem_nil rem)⟩
      change ("pending" : String) ≠ "confirmed"
      decide
    · exact ⟨fun h => absurd rfl h, fun _ => rfl,
        fun rem hrem => mem_createBookingReminders _ _ _ _ rem hrem⟩
  · rw [if_neg hph]
    refine ⟨fun _ => rfl, fun h => absurd h ?_,
      fun rem hrem => absurd hrem (List.not_mem_nil rem)⟩
    change ("pending" : String) ≠ "confirmed"
    decide

/-- C8 witness: concrete confirmed commit (calendar oracle returns a dict with
an id), now = 0 UTC, appointment instant 360: only the two-hours-before
reminder (fire time 240) is in the future, and it is created; the day-before
fire time (−1080) is not, and no such row exists. -/
theorem C8_reminder_gating_witness :
    ((finalBookingConfirmation true true 42 "anna" sampleSlotData "Чистка лица" sampleContact
        (.ok (.dict (some "evt1"))) 7 0).bookingStatus ≠ "confirmed" →
      (finalBookingConfirmation true true 42 "anna" sampleSlotData "Чистка лица" sampleContact
        (.ok (.dict (some "evt1"))) 7 0).reminders = []) ∧
    ((finalBookingConfirmation true true 42 "anna" sampleSlotData "Чистка лица" sampleContact
        (.ok (.dict (some "evt1"))) 7 0).bookingStatus = "confirmed" →
      (finalBookingConfirmation true true 42 "anna" sampleSlotData "Чистка лица" sampleContact
        (.ok (.dict (some "evt1"))) 7 0).reminders = createBookingReminders 0 42 7
          (instantOf (Slot.deserialize sampleSlotData).start)) ∧
    (∀ rem ∈ (finalBookingConfirmation true true 42 "anna" sampleSlotData "Чистка лица"
        sampleContact (.ok (.dict (some "evt1"))) 7 0).reminders,
      (0 : Int) < rem.scheduled_time ∧
        ((rem.reminder_type = "day_before" ∧
            rem.scheduled_time = instantOf (Slot.deserialize sampleSlotData).start - 1440) ∨
         (rem.reminder_type = "hour_before" ∧
            rem.scheduled_time = instantOf (Slot.deserialize sampleSlotData).start - 120))) :=
  C8_reminder_gating true 42 "anna" sampleSlotData "Чистка лица" sampleContact
    (.ok (.dict (some "evt1"))) 7 0 _ rfl

/-! ## Time-slot selection handler (src/bot/handlers/fsm_booking.py,
`time_slot_selected_handler`) -/

/-- Conversation state visible to the time-selection stage. -/
structure TimeSelState where
  procedureName : String
  availableSlots : List SerializedSlot
  selectedSlot : Option SerializedSlot
  stage : String
  deriving DecidableEq, Repr

inductive SelOutcome
  | retryPrompt
  | proceedToContact
  deriving DecidableEq, Repr

/-- Python list indexing `l[i]` with its negative-index semantics;
`none` = `IndexError`. -/
def pyIndex {α : Type} (l : List α) (i : Int) : Option α :=
  if 0 ≤ i then l[i.toNat]?
  else if 0 ≤ i + l.length then l[(i + l.length).toNat]? else none

/-- Source `time_slot_selected_handler`: here `parsedIndex` is `int(callback.data.split("_")[1])`
(`none` when that raised `ValueError`). An index `>= len` is rejected with the
retry message and plain `return` — state untouched. Otherwise
`serialized_slots[slot_index]` is accessed with Python indexing; an
`IndexError` (or the earlier `ValueError`) lands in the
`except (ValueError, IndexError)` arm: retry message, state untouched. On
success the deserialized slot is re-serialized into state and the FSM moves to
contact entry. -/
def timeSlotSelected (parsedIndex : Option Int) (st : TimeSelState) :
    TimeSelState × SelOutcome :=
  match parsedIndex with
  | none => (st, .retryPrompt)
  | some i =>
    if (st.availableSlots.length : Int) ≤ i then (st, .retryPrompt)
    else
      match pyIndex st.availableSlots i with
      | none => (st, .retryPrompt)
      | some s =>
        ({ st with selectedSlot := some ((Slot.deserialize s).serialize),
                   stage := "booking_contact_info" }, .proceedToContact)

def twoSlotState : TimeSelState :=
  ⟨"Чистка лица", [sampleSlotData, sampleSlotData], none, "booking_time_selection"⟩

/-- C9 counterexample: the index −1 is not a valid position in the stored
two-element slot list, yet the handler does NOT reject it — only the upper
bound is checked, and Python indexing accepts −1 as the last element — so the
selection proceeds to contact entry and the state is mutated. -/
theorem C9_stale_index_counterexample :
    (timeSlotSelected (some (-1)) twoSlotState).2 = .proceedToContact ∧
      (timeSlotSelected (some (-1)) twoSlotState).1 ≠ twoSlotState := by
  decide

/-- C9 (amended): an unparsable index, an index ≥ the stored list length, or a
negative index below −length is rejected with a retry prompt and the
conversation state is returned unchanged (procedure and slot-list data
preserved); but a negative index with −length ≤ i < 0 is accepted with
Python's from-the-end indexing and advances the flow. -/
theorem C9_invalid_index_amended (idx : Option Int) (st : TimeSelState)
    (h : idx = none ∨ ∃ i, idx = some i ∧
      ((st.availableSlots.length : Int) ≤ i ∨ i + st.availableSlots.length < 0)) :
    timeSlotSelected idx st = (st, .retryPrompt) := by
  rcases h with rfl | ⟨i, rfl, hi | hi⟩
  · rfl
  · simp [timeSlotSelected, hi]
  · have h1 : ¬((st.availableSlots.length : Int) ≤ i) := by omega
    have h2 : ¬(0 ≤ i) := by omega
    have h3 : ¬(0 ≤ i + st.availableSlots.length) := by omega
    simp [timeSlotSelected, pyIndex, h1, h2, h3]

/-- C9 witness: index 5 against the two-element list is rejected and the state
is preserved verbatim. -/
theorem C9_invalid_index_amended_witness :
    timeSlotSelected (some 5) twoSlotState = (twoSlotState, .retryPrompt) :=
  C9_invalid_index_amended (some 5) twoSlotState (Or.inr ⟨5, rfl, Or.inl (by decide)⟩)

end ConsultantBot
